import Mathlib

/-!
Verification of the bank FD-rates scraper backend (`app.py`).

The development shallowly embeds the table-extraction core of the
program:

* `extract_table_from_html` (app.py lines 54-91): the generic,
  pandas-based parser.  Its input is modelled as the list of data frames
  that `pandas.read_html` returns for the fetched document (`none` when
  the fetch or the parse raised, which the broad `except` turns into a
  `None` return).
* `extract_hdfc_table` (app.py lines 93-139): the structural,
  BeautifulSoup-based parser, modelled over an explicit HTML table tree
  (rows of header/data tagged cells).
* `fetch_bank_data` (app.py lines 164-211) and `fetch_multiple_banks`
  (app.py lines 213-233): the per-bank orchestrator with its global
  `fetched_data` store, modelled with explicit state passing.

Library behaviour the program relies on is modelled where the claims
need it and documented at each definition: `DataFrame.dropna` with
`how = all` drops exactly the rows all of whose entries are missing
(NaN), `reset_index(drop=True)` is the identity on the positional
row-list representation used here, `to_dict` in `records` mode builds
one insertion-ordered dictionary per row, and `pandas.read_html` text
handling (whitespace collapsing, NA conversion) is modelled for tables
with a single header row.  Python string primitives (`strip`,
single-character `replace`) are modelled character-wise.
-/

/-- A pandas cell value: either missing (NaN) or a string.  The
`read_html` text parser also coerces numeric-looking text to numbers;
that coercion is not modelled here, cells the claims touch stay
strings. -/
inductive PdValue where
  | nan : PdValue
  | str (s : String) : PdValue
deriving DecidableEq, Repr

/-- `true` exactly on the missing value. -/
def PdValue.isNan : PdValue → Bool
  | PdValue.nan => true
  | PdValue.str _ => false

/-- Column index of a data frame as `pandas.read_html` returns it:
either a flat index (one label per column) or a MultiIndex (one tuple
of level labels per column). -/
inductive Columns where
  | flat (labels : List String) : Columns
  | multi (labels : List (List String)) : Columns
deriving DecidableEq, Repr

/-- A data frame as returned by `pandas.read_html`: a column index that
may still be a MultiIndex, and the body rows.  Rows are positional,
mirroring the default integer index. -/
structure PFrame where
  columns : Columns
  rows : List (List PdValue)
deriving DecidableEq, Repr

/-- A data frame with a flat column index, the shape both extractors
return. -/
structure Frame where
  columns : List String
  rows : List (List PdValue)
deriving DecidableEq, Repr

/-- Model of `df.empty` in pandas: true when either axis has length
zero. -/
def frameEmpty (f : Frame) : Bool :=
  f.rows.isEmpty || f.columns.isEmpty

/-- Model of `df.dropna(how='all')` followed by
`df.reset_index(drop=True)` (app.py lines 80-81 and 130-131): keep
exactly the rows that have at least one non-missing entry.  On the
positional row-list representation the index reset is the identity, so
it adds nothing here. -/
def dropna_all (f : Frame) : Frame :=
  { columns := f.columns, rows := f.rows.filter (fun r => !(r.all PdValue.isNan)) }

/-- Strip leading and trailing whitespace from a character list. -/
def stripChars (l : List Char) : List Char :=
  ((l.dropWhile Char.isWhitespace).reverse.dropWhile Char.isWhitespace).reverse

/-- Model of Python `str.strip()` and of BeautifulSoup
`get_text(strip=True)` on a single text segment. -/
def pyStrip (s : String) : String :=
  (stripChars s.toList).asString

/-- Model of flattening a MultiIndex column as app.py line 77 does:
`' '.join(col).strip()` joins the level labels of each column with one
space and strips the surrounding whitespace of the joined string
(`pyStrip` is the model of Python `str.strip()`). -/
def flattenColumns : Columns → List String
  | Columns.flat labels => labels
  | Columns.multi labels => labels.map (fun col => pyStrip (String.intercalate " " col))

/-- The generic parser, `extract_table_from_html` (app.py lines 54-91).
The document argument is the outcome of the fetch-and-parse tier:
`some tables` when `pd.read_html` succeeded (directly or after the
`requests` fallback), `none` when it raised, in which case the outer
`except` makes the function return `None`.  In range, the selected
frame gets its MultiIndex flattened (lines 76-77), completely empty
rows dropped and the index reset (lines 80-81); out of range the
function returns `None` (lines 84-86). -/
def extract_table_from_html (doc : Option (List PFrame)) (table_index : Nat) :
    Option Frame :=
  match doc with
  | none => none
  | some tables =>
    if h : table_index < tables.length then
      let df := tables[table_index]
      some (dropna_all { columns := flattenColumns df.columns, rows := df.rows })
    else
      none

/-- Tag of an HTML table cell: header cell `th` or data cell `td`. -/
inductive CellTag where
  | th : CellTag
  | td : CellTag
deriving DecidableEq, Repr

/-- An HTML table cell: its tag and its text content (modelled as one
text segment). -/
structure Cell where
  tag : CellTag
  text : String
deriving DecidableEq, Repr

/-- An HTML table row (`tr` element): its cells in document order. -/
structure HtmlRow where
  cells : List Cell
deriving DecidableEq, Repr

/-- An HTML table element: its rows in document order. -/
structure HtmlTable where
  rows : List HtmlRow
deriving DecidableEq, Repr

/-- Model of Python `str.replace('\n', ' ')`: every newline character
becomes one space. -/
def pyReplaceNl (s : String) : String :=
  (s.toList.map (fun c => if c = '\n' then ' ' else c)).asString

/-- The text of every `td` cell of one row, normalised as app.py line
119 does: `cell.get_text(strip=True).replace('\n', ' ')`. -/
def tdTexts (tr : HtmlRow) : List String :=
  (tr.cells.filter (fun c => c.tag = CellTag.td)).map (fun c => pyReplaceNl (pyStrip c.text))

/-- The text of every `th` cell anywhere in the table in document
order, as app.py line 112 collects with `table.find_all('th')` and
`th.get_text(strip=True)`. -/
def thTexts (t : HtmlTable) : List String :=
  ((t.rows.flatMap (fun r => r.cells)).filter (fun c => c.tag = CellTag.th)).map
    (fun c => pyStrip c.text)

/-- Row-width reconciliation of the structural parser (app.py lines
121-127): a row shorter than the header width is padded on the right
with empty strings, a longer one is truncated to the first
`num_columns` cells. -/
def reconcileRow (num_columns : Nat) (row : List String) : List String :=
  if row.length < num_columns then
    row ++ List.replicate (num_columns - row.length) ""
  else if row.length > num_columns then
    row.take num_columns
  else
    row

/-- The structural parser, `extract_hdfc_table` (app.py lines 93-139).
The document argument is the list of `table` elements BeautifulSoup
finds in the response (`none` when the request raised, which the
`except` turns into `None`).  Out-of-range index returns `None` (lines
105-107).  Otherwise the headers are all `th` texts of the table, every
row but the first is a body row of normalised `td` texts reconciled to
the header width, and the resulting string frame goes through
`dropna(how='all')` and an index reset (lines 129-131). -/
def extract_hdfc_table (doc : Option (List HtmlTable)) (table_index : Nat) :
    Option Frame :=
  match doc with
  | none => none
  | some tables =>
    if h : table_index < tables.length then
      let table := tables[table_index]
      let headers := thTexts table
      let num_columns := headers.length
      let rows := (table.rows.drop 1).map (fun tr => reconcileRow num_columns (tdTexts tr))
      some (dropna_all
        { columns := headers, rows := rows.map (fun r => r.map PdValue.str) })
    else
      none

/-- One step bound for `collapseAux`; the fuel is the list length, and
every step consumes at least one character. -/
def crlfChar (c : Char) : Bool :=
  c = '\r' || c = '\n'

/-- Model of the pandas regex `[\r\n]+|\s{2,}` substituted by one
space, scanned left to right with greedy matches, as
`pandas.io.html._remove_whitespace` applies to already-stripped cell
text: a maximal run of carriage returns and newlines becomes one
space, otherwise a maximal whitespace run of length at least two
becomes one space, any other character is kept.  Structural recursion
on a fuel bounded below by the list length. -/
def collapseAux : Nat → List Char → List Char
  | 0, _ => []
  | _, [] => []
  | fuel + 1, c :: cs =>
    if crlfChar c then
      ' ' :: collapseAux fuel (cs.dropWhile crlfChar)
    else if c.isWhitespace && (match cs with | [] => false | d :: _ => d.isWhitespace) then
      ' ' :: collapseAux fuel (cs.dropWhile Char.isWhitespace)
    else
      c :: collapseAux fuel cs

/-- Model of `pandas.io.html._remove_whitespace`: strip the text, then
collapse whitespace runs as `collapseAux` describes.  This is the text
normalisation `read_html` applies to every cell. -/
def pdText (s : String) : String :=
  ((collapseAux (stripChars s.toList).length (stripChars s.toList))).asString

/-- The default NA sentinel strings of the pandas text parser
(`pandas._libs.parsers.STR_NA_VALUES`). -/
def naValues : List String :=
  ["", "#N/A", "#N/A N/A", "#NA", "-1.#IND", "-1.#QNAN", "-NaN", "-nan",
   "1.#IND", "1.#QNAN", "<NA>", "N/A", "NA", "NULL", "NaN", "None", "n/a",
   "nan", "null"]

/-- Model of how the `read_html` text parser turns one body-cell text
into a frame value: whitespace-normalised text, with the default NA
sentinels (the empty string among them) becoming the missing value.
The parser also coerces numeric-looking text to numbers; that is not
modelled, such cells stay strings here. -/
def pdCell (s : String) : PdValue :=
  if naValues.contains (pdText s) then PdValue.nan else PdValue.str (pdText s)

/-- Model of `pandas.read_html` on one table element whose first row is
the single header row (the shape the one-header-row claims quantify
over): the first row's cell texts, whitespace-normalised, become the
flat column index, every later row becomes a body row of NA-converted
cell values.  Header NA handling (`Unnamed: k` labels) and numeric
coercion are not modelled; the claims restrict to cells where both are
the identity. -/
def readHtml1 (t : HtmlTable) : PFrame :=
  match t.rows with
  | [] => { columns := Columns.flat [], rows := [] }
  | hr :: body =>
    { columns := Columns.flat (hr.cells.map (fun c => pdText c.text)),
      rows := body.map (fun r => r.cells.map (fun c => pdCell c.text)) }

/-- One entry of `BANK_CONFIG` (app.py lines 23-49): target address,
target table position, and the special flag selecting the structural
parser. -/
structure BankConfig where
  url : String
  table_index : Nat
  special : Bool
deriving DecidableEq, Repr

/-- The bank configurations of app.py lines 23-49. -/
def BANK_CONFIG : List (String × BankConfig) :=
  [("NSB", { url := "https://www.nsb.lk/rates-tarriffs/rupee-deposit-rates/",
             table_index := 1, special := false }),
   ("RDB", { url := "https://www.rdb.lk/interest-rates/",
             table_index := 2, special := false }),
   ("SDB", { url := "https://www.sdb.lk/en/rates?tableid=5",
             table_index := 1, special := false }),
   ("SMIB", { url := "https://www.smib.lk/en/normal-fd-rates",
              table_index := 0, special := false }),
   ("HDFC", { url := "https://www.hdfc.lk/rates-%26-tarfiffs",
              table_index := 1, special := true })]

/-- Lookup in an association list with string keys, the model of
Python `dict` reads (`bank_name in BANK_CONFIG`, `BANK_CONFIG[...]`,
`fetched_data[...]`, `results[...]`). -/
def lookupA {α : Type} : List (String × α) → String → Option α
  | [], _ => none
  | (k, v) :: d, key => if k = key then some v else lookupA d key

/-- Python `dict` write `d[k] = v`: update the value in place when the
key is present, append the pair otherwise. -/
def dictInsert {α : Type} : List (String × α) → String → α → List (String × α)
  | [], k, v => [(k, v)]
  | (k', v') :: d, k, v =>
    if k' = k then (k', v) :: d else (k', v') :: dictInsert d k v

/-- A normalised record: the `to_dict('records')` image of one frame
row, an insertion-ordered string-keyed dictionary. -/
def Rec : Type := List (String × PdValue)

instance : DecidableEq Rec := by
  unfold Rec
  infer_instance

/-- Model of `df.to_dict('records')` (app.py line 185): one dictionary
per row, built by inserting the column-value pairs in column order
(a repeated column label therefore keeps the last value, as the pandas
dict materialisation does). -/
def to_records (f : Frame) : List Rec :=
  f.rows.map (fun r => (f.columns.zip r).foldl (fun d kv => dictInsert d kv.1 kv.2) [])

/-- One entry of the global `fetched_data` store (app.py lines 51-52
and 188-191): the records and the fetch timestamp. -/
structure Entry where
  data : List Rec
  timestamp : String
deriving DecidableEq

/-- The JSON envelope `fetch_bank_data` returns: the 404 unknown-bank
error (lines 167-172), the success payload (lines 193-198), or the
"No data found or table extraction failed" error (lines 200-204). -/
inductive Resp where
  | notFound (bank : String) : Resp
  | success (bank : String) (data : List Rec) : Resp
  | noData (bank : String) : Resp
deriving DecidableEq

/-- `true` exactly on the success envelope. -/
def Resp.isSuccess : Resp → Bool
  | Resp.success _ _ => true
  | _ => false

/-- The documents the network would hand each extractor, indexed by
URL: what `pd.read_html` would yield for the generic path and what
BeautifulSoup would yield for the structural path, `none` when the
fetch or parse raises there. -/
structure World where
  pandasDocs : String → Option (List PFrame)
  htmlDocs : String → Option (List HtmlTable)

/-- The parser dispatch of app.py lines 178-181: the structural parser
exactly when the config is special and the bank is HDFC, the generic
parser otherwise. -/
def runExtract (w : World) (bank : String) (cfg : BankConfig) : Option Frame :=
  if cfg.special = true ∧ bank = "HDFC" then
    extract_hdfc_table (w.htmlDocs cfg.url) cfg.table_index
  else
    extract_table_from_html (w.pandasDocs cfg.url) cfg.table_index

/-- `fetch_bank_data` (app.py lines 164-211) with the global
`fetched_data` store passed explicitly: unknown bank is the 404 error;
a non-`None`, non-empty frame is converted to records, stored under
the bank with the current timestamp, and returned as success; `None`
or an empty frame returns the generic no-data error and leaves the
store untouched. -/
def fetch_bank_data (w : World) (config : List (String × BankConfig))
    (store : List (String × Entry)) (bank : String) (now : String) :
    Resp × List (String × Entry) :=
  match lookupA config bank with
  | none => (Resp.notFound bank, store)
  | some cfg =>
    match runExtract w bank cfg with
    | some df =>
      if frameEmpty df then
        (Resp.noData bank, store)
      else
        let data := to_records df
        (Resp.success bank data, dictInsert store bank { data := data, timestamp := now })
    | none => (Resp.noData bank, store)

/-- The loop body of `fetch_multiple_banks` (app.py lines 221-224):
walk the requested banks in order, skip the ones missing from the
config, call `fetch_bank_data` for the rest, threading the store and
accumulating the per-bank results dictionary. -/
def fmbAux (w : World) (config : List (String × BankConfig)) (now : String) :
    List String → List (String × Entry) → List (String × Resp) →
    List (String × Resp) × List (String × Entry)
  | [], store, acc => (acc, store)
  | bank :: rest, store, acc =>
    if (lookupA config bank).isSome then
      let p := fetch_bank_data w config store bank now
      fmbAux w config now rest p.2 (dictInsert acc bank p.1)
    else
      fmbAux w config now rest store acc

/-- `fetch_multiple_banks` (app.py lines 213-233): the per-bank results
dictionary and the final state of the shared store. -/
def fetch_multiple_banks (w : World) (config : List (String × BankConfig))
    (store : List (String × Entry)) (banks : List String) (now : String) :
    List (String × Resp) × List (String × Entry) :=
  fmbAux w config now banks store []

/-- The response part of `fetch_bank_data` as a function of the world
and the configuration alone: the envelope does not depend on the
store. -/
def respOf (w : World) (config : List (String × BankConfig)) (bank : String) : Resp :=
  match lookupA config bank with
  | none => Resp.notFound bank
  | some cfg =>
    match runExtract w bank cfg with
    | some df =>
      if frameEmpty df then Resp.noData bank else Resp.success bank (to_records df)
    | none => Resp.noData bank

/-! ## Concrete fixtures used by witnesses and counterexamples -/

/-- A frame whose columns form a MultiIndex: top level "Rate" over the
sub-levels "1yr" and "2yr". -/
def pfRate : PFrame :=
  { columns := Columns.multi [["Rate", "1yr"], ["Rate", "2yr"]],
    rows := [[PdValue.str "5.1", PdValue.str "6.2"]] }

/-- A structural-parser table: two header cells, one fully blank body
row, one populated body row. -/
def tBlankRow : HtmlTable :=
  { rows := [{ cells := [{ tag := CellTag.th, text := "A" }, { tag := CellTag.th, text := "B" }] },
             { cells := [{ tag := CellTag.td, text := "" }, { tag := CellTag.td, text := "" }] },
             { cells := [{ tag := CellTag.td, text := "x" }, { tag := CellTag.td, text := "y" }] }] }

/-- A structural-parser table with a 4-column header, a 2-cell body row
and a 6-cell body row. -/
def tRagged : HtmlTable :=
  { rows := [{ cells := [{ tag := CellTag.th, text := "A" }, { tag := CellTag.th, text := "B" },
                         { tag := CellTag.th, text := "C" }, { tag := CellTag.th, text := "D" }] },
             { cells := [{ tag := CellTag.td, text := "p" }, { tag := CellTag.td, text := "q" }] },
             { cells := [{ tag := CellTag.td, text := "a" }, { tag := CellTag.td, text := "b" },
                         { tag := CellTag.td, text := "c" }, { tag := CellTag.td, text := "d" },
                         { tag := CellTag.td, text := "e" }, { tag := CellTag.td, text := "f" }] }] }

/-- A world in which every fetch or parse fails. -/
def wAllFail : World :=
  { pandasDocs := fun _ => none, htmlDocs := fun _ => none }

/-- A world in which the NSB address parses to two tables whose target
(position 1) is a valid but empty table. -/
def wNsbEmptyTable : World :=
  { pandasDocs := fun _ =>
      some [{ columns := Columns.flat ["A"], rows := [[PdValue.str "x"]] },
            { columns := Columns.flat ["A"], rows := [] }],
    htmlDocs := fun _ => none }

/-- A world in which only the NSB address yields data: two tables, the
target (position 1) non-empty; every other fetch fails. -/
def wNsbOk : World :=
  { pandasDocs := fun u =>
      if u = "https://www.nsb.lk/rates-tarriffs/rupee-deposit-rates/" then
        some [{ columns := Columns.flat ["A"], rows := [[PdValue.str "x"]] },
              { columns := Columns.flat ["A"], rows := [[PdValue.str "7.5%"]] }]
      else
        none,
    htmlDocs := fun _ => none }

/-- A cell text both pipelines keep verbatim: already stripped, free of
newlines, and kept as this very string by the `read_html` text parser
(so not an NA sentinel and not subject to whitespace collapsing). -/
def cellTextNormal (s : String) : Prop :=
  pyStrip s = s ∧ pyReplaceNl s = s ∧ pdCell s = PdValue.str s

instance (s : String) : Decidable (cellTextNormal s) :=
  inferInstanceAs (Decidable (_ ∧ _ ∧ _))

/-- A one-header-row table whose single body cell carries a double
space: the two parsers normalise it differently. -/
def tWs : HtmlTable :=
  { rows := [{ cells := [{ tag := CellTag.th, text := "A" }] },
             { cells := [{ tag := CellTag.td, text := "a  b" }] }] }

/-- A one-header-row table with verbatim-normal cell texts. -/
def tNormal : HtmlTable :=
  { rows := [{ cells := [{ tag := CellTag.th, text := "A" }, { tag := CellTag.th, text := "B" }] },
             { cells := [{ tag := CellTag.td, text := "x1" }, { tag := CellTag.td, text := "y2" }] }] }

/-! ## Helper lemmas -/

theorem reconcileRow_length (H : Nat) (r : List String) :
    (reconcileRow H r).length = H := by
  unfold reconcileRow
  by_cases h1 : r.length < H
  · simp only [if_pos h1, List.length_append, List.length_replicate]
    omega
  · by_cases h2 : r.length > H
    · simp only [if_neg h1, if_pos h2, List.length_take]
      omega
    · simp only [if_neg h1, if_neg h2]
      omega

theorem reconcileRow_eq_self (H : Nat) (r : List String) (h : r.length = H) :
    reconcileRow H r = r := by
  unfold reconcileRow
  simp [h]

theorem strRow_all_isNan (r : List String) :
    ((r.map PdValue.str).all PdValue.isNan) = r.isEmpty := by
  cases r with
  | nil => rfl
  | cons a l => simp [PdValue.isNan]

theorem dropna_all_str_rows (cols : List String) (rows : List (List String))
    (h : ∀ r ∈ rows, r ≠ []) :
    dropna_all { columns := cols, rows := rows.map (fun r => r.map PdValue.str) } =
      { columns := cols, rows := rows.map (fun r => r.map PdValue.str) } := by
  unfold dropna_all
  simp only [Frame.mk.injEq, true_and]
  apply List.filter_eq_self.mpr
  intro r hr
  obtain ⟨r0, hr0, rfl⟩ := List.mem_map.mp hr
  rw [strRow_all_isNan]
  simpa using h r0 hr0

/-! ## Claim theorems -/

/-- C1: for every body row of the table the structural parser selects,
a row with fewer cells than the header width is emitted padded on the
right with empty strings to that width, a row with more cells is
truncated to the first `H` cells, and every emitted row has length
exactly `H` (here `H = (thTexts t).length`, the header width; the
positivity hypothesis rules out the degenerate headerless table, whose
zero-width rows the empty-row filter would remove). -/
theorem structural_row_width_reconciliation (tables : List HtmlTable) (i : Nat)
    (t : HtmlTable) (ht : tables[i]? = some t) (hH : 0 < (thTexts t).length) :
    ∃ f, extract_hdfc_table (some tables) i = some f ∧
      f.rows = (t.rows.drop 1).map (fun tr =>
        (if (tdTexts tr).length < (thTexts t).length then
          tdTexts tr ++ List.replicate ((thTexts t).length - (tdTexts tr).length) ""
        else if (tdTexts tr).length > (thTexts t).length then
          (tdTexts tr).take (thTexts t).length
        else
          tdTexts tr).map PdValue.str) ∧
      ∀ r ∈ f.rows, r.length = (thTexts t).length := by
  rcases List.getElem?_eq_some.mp ht with ⟨hi, hEq⟩
  have hkeep : ∀ r0 ∈ (t.rows.drop 1).map
      (fun tr => reconcileRow (thTexts t).length (tdTexts tr)), r0 ≠ [] := by
    intro r0 hr0
    obtain ⟨tr, _, rfl⟩ := List.mem_map.mp hr0
    have hlen := reconcileRow_length (thTexts t).length (tdTexts tr)
    intro hnil
    rw [hnil] at hlen
    simp only [List.length_nil] at hlen
    omega
  have hext : extract_hdfc_table (some tables) i =
      some { columns := thTexts t,
             rows := ((t.rows.drop 1).map
               (fun tr => reconcileRow (thTexts t).length (tdTexts tr))).map
                 (fun r => r.map PdValue.str) } := by
    simp only [extract_hdfc_table]
    rw [dif_pos hi]
    simp only [hEq]
    exact congrArg some (dropna_all_str_rows _ _ hkeep)
  refine ⟨_, hext, ?_, ?_⟩
  · simp only [List.map_map]
    rfl
  · intro r hr
    simp only [List.map_map, List.mem_map] at hr
    obtain ⟨tr, _, rfl⟩ := hr
    simp only [Function.comp_apply, List.length_map]
    exact reconcileRow_length _ _

/-- Witness for C1 at the ragged fixture: against the 4-column header,
the 2-cell row comes out padded with two empty strings and the 6-cell
row truncated to its first 4 cells, each of length 4. -/
theorem structural_row_width_reconciliation_witness :
    ∃ f, extract_hdfc_table (some [tRagged]) 0 = some f ∧
      f.rows = (tRagged.rows.drop 1).map (fun tr =>
        (if (tdTexts tr).length < (thTexts tRagged).length then
          tdTexts tr ++ List.replicate ((thTexts tRagged).length - (tdTexts tr).length) ""
        else if (tdTexts tr).length > (thTexts tRagged).length then
          (tdTexts tr).take (thTexts tRagged).length
        else
          tdTexts tr).map PdValue.str) ∧
      ∀ r ∈ f.rows, r.length = (thTexts tRagged).length :=
  structural_row_width_reconciliation [tRagged] 0 tRagged (by decide) (by decide)

/-- C2: a table position at or past the number of discovered tables
makes both parsers return the failure result `none` (the `None` return
of app.py lines 84-86 and 105-107): no crash, and no successful
result, empty or otherwise. -/
theorem position_out_of_range_fails (ptables : List PFrame) (htables : List HtmlTable)
    (i j : Nat) (hi : ptables.length ≤ i) (hj : htables.length ≤ j) :
    extract_table_from_html (some ptables) i = none ∧
    extract_hdfc_table (some htables) j = none := by
  constructor
  · simp only [extract_table_from_html]
    rw [dif_neg (Nat.not_lt.mpr hi)]
  · simp only [extract_hdfc_table]
    rw [dif_neg (Nat.not_lt.mpr hj)]

/-- Witness for C2: position equal to the table count (1 table, index
1) fails on both parsers. -/
theorem position_out_of_range_fails_witness :
    extract_table_from_html (some [pfRate]) 1 = none ∧
    extract_hdfc_table (some [tRagged]) 1 = none :=
  position_out_of_range_fails [pfRate] [tRagged] 1 1 (by decide) (by decide)

/-- C3 is a code bug: the structural parser builds its frame from
Python strings, and `dropna(how='all')` only removes rows all of whose
cells are missing values, so a body row whose every cell is the empty
string survives, against both the specification and the inline comment
"Remove completely empty rows" at app.py line 130.  At the `tBlankRow`
fixture (2 data rows, 1 of them fully blank) the parser emits both
rows instead of the specified 2 - 1 = 1. -/
theorem structural_keeps_fully_blank_row :
    extract_hdfc_table (some [tBlankRow]) 0 =
      some { columns := ["A", "B"],
             rows := [[PdValue.str "", PdValue.str ""],
                      [PdValue.str "x", PdValue.str "y"]] } := by
  decide

/-- C4: when the selected table has composite (MultiIndex) headers,
the generic parser emits for each column the single label obtained by
joining that column's header levels with one space and stripping the
surrounding whitespace of the joined string (app.py lines 76-77). -/
theorem multiindex_flatten_labels (tables : List PFrame) (i : Nat)
    (cols : List (List String)) (hi : i < tables.length)
    (hc : tables[i].columns = Columns.multi cols) :
    ∃ f, extract_table_from_html (some tables) i = some f ∧
      f.columns = cols.map (fun col => pyStrip (String.intercalate " " col)) := by
  have hext : extract_table_from_html (some tables) i =
      some (dropna_all { columns := flattenColumns tables[i].columns,
                         rows := tables[i].rows }) := by
    simp only [extract_table_from_html]
    rw [dif_pos hi]
  refine ⟨_, hext, ?_⟩
  show (dropna_all _).columns = _
  simp only [dropna_all, hc, flattenColumns]

/-- Witness for C4: the header "Rate" over the sub-headers "1yr" and
"2yr" flattens to the labels "Rate 1yr" and "Rate 2yr". -/
theorem multiindex_flatten_labels_witness :
    ∃ f, extract_table_from_html (some [pfRate]) 0 = some f ∧
      f.columns = ["Rate 1yr", "Rate 2yr"] := by
  obtain ⟨f, hf, hc⟩ :=
    multiindex_flatten_labels [pfRate] 0 [["Rate", "1yr"], ["Rate", "2yr"]]
      (by decide) (by decide)
  refine ⟨f, hf, ?_⟩
  rw [hc]
  decide

/-- C6: on an in-range position the structural parser's column labels
are exactly the stripped texts of all `th` cells anywhere in the
selected table in document order, their count is the column count, and
every row after the first is a body row whose `td` texts are stripped,
their newlines replaced by single spaces, and reconciled to the header
width (the positivity hypothesis rules out the headerless table, where
the zero-width body rows would then be removed as fully empty). -/
theorem structural_headers_and_body (tables : List HtmlTable) (i : Nat)
    (t : HtmlTable) (ht : tables[i]? = some t) (hH : 0 < (thTexts t).length) :
    extract_hdfc_table (some tables) i =
      some { columns :=
               ((t.rows.flatMap (fun r => r.cells)).filter
                 (fun c => c.tag = CellTag.th)).map (fun c => pyStrip c.text),
             rows := (t.rows.drop 1).map (fun tr =>
               (reconcileRow (thTexts t).length
                 ((tr.cells.filter (fun c => c.tag = CellTag.td)).map
                   (fun c => pyReplaceNl (pyStrip c.text)))).map PdValue.str) } := by
  rcases List.getElem?_eq_some.mp ht with ⟨hi, hEq⟩
  have hkeep : ∀ r0 ∈ (t.rows.drop 1).map
      (fun tr => reconcileRow (thTexts t).length (tdTexts tr)), r0 ≠ [] := by
    intro r0 hr0
    obtain ⟨tr, _, rfl⟩ := List.mem_map.mp hr0
    have hlen := reconcileRow_length (thTexts t).length (tdTexts tr)
    intro hnil
    rw [hnil] at hlen
    simp only [List.length_nil] at hlen
    omega
  have hext : extract_hdfc_table (some tables) i =
      some { columns := thTexts t,
             rows := ((t.rows.drop 1).map
               (fun tr => reconcileRow (thTexts t).length (tdTexts tr))).map
                 (fun r => r.map PdValue.str) } := by
    simp only [extract_hdfc_table]
    rw [dif_pos hi]
    simp only [hEq]
    exact congrArg some (dropna_all_str_rows _ _ hkeep)
  rw [hext]
  simp only [List.map_map]
  rfl

/-- Witness for C6 at the ragged fixture. -/
theorem structural_headers_and_body_witness :
    extract_hdfc_table (some [tRagged]) 0 =
      some { columns :=
               ((tRagged.rows.flatMap (fun r => r.cells)).filter
                 (fun c => c.tag = CellTag.th)).map (fun c => pyStrip c.text),
             rows := (tRagged.rows.drop 1).map (fun tr =>
               (reconcileRow (thTexts tRagged).length
                 ((tr.cells.filter (fun c => c.tag = CellTag.td)).map
                   (fun c => pyReplaceNl (pyStrip c.text)))).map PdValue.str) } :=
  structural_headers_and_body [tRagged] 0 tRagged (by decide) (by decide)

/-- C8: the normalisation steps are idempotent.  Row-width
reconciliation applied to an already reconciled row changes nothing
(its length is already the header width), and the empty-row drop with
its index reset applied to an already filtered frame changes nothing,
so re-normalising an already normalised matrix yields the same
records. -/
theorem normalization_idempotent (H : Nat) (r : List String) (f : Frame) :
    reconcileRow H (reconcileRow H r) = reconcileRow H r ∧
    dropna_all (dropna_all f) = dropna_all f := by
  constructor
  · exact reconcileRow_eq_self H (reconcileRow H r) (reconcileRow_length H r)
  · unfold dropna_all
    simp [List.filter_filter]

/-! ## Orchestrator lemmas -/

theorem lookupA_dictInsert_self {α : Type} (d : List (String × α)) (k : String) (v : α) :
    lookupA (dictInsert d k v) k = some v := by
  induction d with
  | nil => simp [dictInsert, lookupA]
  | cons p d ih =>
    obtain ⟨k', v'⟩ := p
    by_cases h : k' = k
    · simp [dictInsert, lookupA, h]
    · simp [dictInsert, lookupA, h, ih]

theorem lookupA_dictInsert_ne {α : Type} (d : List (String × α)) (k key : String)
    (v : α) (h : k ≠ key) : lookupA (dictInsert d k v) key = lookupA d key := by
  induction d with
  | nil => simp [dictInsert, lookupA, h]
  | cons p d ih =>
    obtain ⟨k', v'⟩ := p
    by_cases hk : k' = k
    · subst hk
      simp [dictInsert, lookupA, h]
    · simp [dictInsert, lookupA, hk, ih]

theorem fetch_bank_data_fst (w : World) (config : List (String × BankConfig))
    (store : List (String × Entry)) (bank now : String) :
    (fetch_bank_data w config store bank now).1 = respOf w config bank := by
  unfold fetch_bank_data respOf
  cases lookupA config bank with
  | none => rfl
  | some cfg =>
    dsimp only
    cases runExtract w bank cfg with
    | none => rfl
    | some df =>
      dsimp only
      cases h : frameEmpty df <;> simp [h]

theorem respOf_local (w w' : World) (config : List (String × BankConfig))
    (bank : String) (cfg : BankConfig)
    (hcfg : lookupA config bank = some cfg)
    (hp : w.pandasDocs cfg.url = w'.pandasDocs cfg.url)
    (hh : w.htmlDocs cfg.url = w'.htmlDocs cfg.url) :
    respOf w config bank = respOf w' config bank := by
  have hrun : runExtract w bank cfg = runExtract w' bank cfg := by
    unfold runExtract
    by_cases h : cfg.special = true ∧ bank = "HDFC" <;> simp [h, hp, hh]
  unfold respOf
  rw [hcfg]
  dsimp only
  rw [hrun]

/-- Counterexample to C5: the orchestrator returns the very same
response for an extraction that failed outright (fetch error, world
`wAllFail`) and for an extraction that succeeded with an empty but
valid table (world `wNsbEmptyTable`), so the empty-but-valid case is
not distinguishable from the error case, and no stage-typed error
reaches the caller. -/
theorem empty_table_indistinguishable_from_error :
    (fetch_bank_data wAllFail BANK_CONFIG [] "NSB" "t").1 =
      (fetch_bank_data wNsbEmptyTable BANK_CONFIG [] "NSB" "t").1 ∧
    runExtract wAllFail "NSB"
      { url := "https://www.nsb.lk/rates-tarriffs/rupee-deposit-rates/",
        table_index := 1, special := false } = none ∧
    runExtract wNsbEmptyTable "NSB"
      { url := "https://www.nsb.lk/rates-tarriffs/rupee-deposit-rates/",
        table_index := 1, special := false } =
      some { columns := ["A"], rows := [] } := by
  decide

/-- C5 as amended: the code collapses every failure and the
empty-but-valid table into one untyped response.  Both parsers return
`None` for every error, and the orchestrator answers the same generic
no-data error whether the chosen extraction failed or produced an
empty frame, so nothing typed per stage reaches the caller. -/
theorem failure_or_empty_collapse_to_noData (w : World)
    (config : List (String × BankConfig)) (store : List (String × Entry))
    (bank now : String) (cfg : BankConfig)
    (hcfg : lookupA config bank = some cfg)
    (h : runExtract w bank cfg = none ∨
      ∃ df, runExtract w bank cfg = some df ∧ frameEmpty df = true) :
    (fetch_bank_data w config store bank now).1 = Resp.noData bank := by
  rw [fetch_bank_data_fst]
  unfold respOf
  rw [hcfg]
  dsimp only
  rcases h with h | ⟨df, hdf, he⟩
  · rw [h]
  · rw [hdf]
    dsimp only
    simp [he]

/-- Witness for the amended C5 at the all-failures world. -/
theorem failure_or_empty_collapse_to_noData_witness :
    (fetch_bank_data wAllFail BANK_CONFIG [] "NSB" "t").1 = Resp.noData "NSB" :=
  failure_or_empty_collapse_to_noData wAllFail BANK_CONFIG [] "NSB" "t"
    { url := "https://www.nsb.lk/rates-tarriffs/rupee-deposit-rates/",
      table_index := 1, special := false }
    (by decide) (Or.inl (by decide))

/-- C10: the store is only written on a successful non-empty
extraction.  Whatever happens, no entry other than the requested
bank's ever changes; and when the response is not the success envelope
(unknown bank, failed extraction, or empty frame) the store is
returned completely unchanged, the requested bank's previous entry
included. -/
theorem store_write_conditions (w : World) (config : List (String × BankConfig))
    (store : List (String × Entry)) (bank now : String) :
    (∀ b, b ≠ bank →
      lookupA (fetch_bank_data w config store bank now).2 b = lookupA store b) ∧
    ((fetch_bank_data w config store bank now).1.isSuccess = false →
      (fetch_bank_data w config store bank now).2 = store) := by
  unfold fetch_bank_data
  cases lookupA config bank with
  | none => exact ⟨fun b _ => rfl, fun _ => rfl⟩
  | some cfg =>
    dsimp only
    cases runExtract w bank cfg with
    | none => exact ⟨fun b _ => rfl, fun _ => rfl⟩
    | some df =>
      dsimp only
      by_cases h : frameEmpty df = true
      · rw [if_pos h]
        exact ⟨fun b _ => rfl, fun _ => rfl⟩
      · rw [if_neg h]
        constructor
        · intro b hb
          exact lookupA_dictInsert_ne store bank b _ (Ne.symm hb)
        · intro hs
          simp [Resp.isSuccess] at hs

/-- Witness for C10: a failed fetch of NSB leaves the (empty) store
unchanged and leaves the absent HDFC entry alone. -/
theorem store_write_conditions_witness :
    lookupA (fetch_bank_data wAllFail BANK_CONFIG [] "NSB" "t").2 "HDFC" =
      lookupA ([] : List (String × Entry)) "HDFC" ∧
    (fetch_bank_data wAllFail BANK_CONFIG [] "NSB" "t").2 = [] :=
  ⟨(store_write_conditions wAllFail BANK_CONFIG [] "NSB" "t").1 "HDFC" (by decide),
   (store_write_conditions wAllFail BANK_CONFIG [] "NSB" "t").2 (by decide)⟩

theorem fmbAux_lookup (w : World) (config : List (String × BankConfig))
    (now bank : String) (hb : (lookupA config bank).isSome = true) :
    ∀ (l : List String) (store : List (String × Entry)) (acc : List (String × Resp)),
      (bank ∈ l ∨ lookupA acc bank = some (respOf w config bank)) →
      lookupA (fmbAux w config now l store acc).1 bank = some (respOf w config bank) := by
  intro l
  induction l with
  | nil =>
    intro store acc h
    rcases h with h | h
    · simp at h
    · simpa [fmbAux] using h
  | cons b rest ih =>
    intro store acc h
    unfold fmbAux
    by_cases hc : (lookupA config b).isSome = true
    · rw [if_pos hc]
      dsimp only
      by_cases hbb : b = bank
      · subst hbb
        apply ih
        right
        rw [lookupA_dictInsert_self]
        rw [fetch_bank_data_fst w config store b now]
      · apply ih
        rcases h with h | h
        · rcases List.mem_cons.mp h with h | h
          · exact absurd h.symm hbb
          · exact Or.inl h
        · right
          rw [lookupA_dictInsert_ne acc b bank _ hbb]
          exact h
    · rw [if_neg hc]
      apply ih
      rcases h with h | h
      · rcases List.mem_cons.mp h with h | h
        · rw [h] at hb
          exact absurd hb hc
        · exact Or.inl h
      · exact Or.inr h

/-- C7: batch extraction isolates failures.  For any bank in the
requested batch that the registry knows, the response recorded for it
by `fetch_multiple_banks` equals the response `fetch_bank_data` would
give for that bank alone — for any other world `w'` that agrees with
`w` on that bank's own address, any store, and any timestamp — so the
failures of the other sources in the batch (encoded freely in the rest
of the world) neither block nor alter this bank's result. -/
theorem batch_failure_isolation (w w' : World) (config : List (String × BankConfig))
    (store store' : List (String × Entry)) (banks : List String) (now now' : String)
    (bank : String) (cfg : BankConfig)
    (hmem : bank ∈ banks)
    (hcfg : lookupA config bank = some cfg)
    (hp : w.pandasDocs cfg.url = w'.pandasDocs cfg.url)
    (hh : w.htmlDocs cfg.url = w'.htmlDocs cfg.url) :
    lookupA (fetch_multiple_banks w config store banks now).1 bank =
      some ((fetch_bank_data w' config store' bank now').1) := by
  have hb : (lookupA config bank).isSome = true := by
    rw [hcfg]
    rfl
  have h1 := fmbAux_lookup w config now bank hb banks store [] (Or.inl hmem)
  unfold fetch_multiple_banks
  rw [h1, fetch_bank_data_fst w' config store' bank now',
    respOf_local w w' config bank cfg hcfg hp hh]

/-- Witness for C7: in a world where only NSB's address yields data
(every other source fails to fetch), the batch of NSB and HDFC records
for NSB exactly the response a solo fetch of NSB gives. -/
theorem batch_failure_isolation_witness :
    lookupA (fetch_multiple_banks wNsbOk BANK_CONFIG [] ["NSB", "HDFC"] "t").1 "NSB" =
      some ((fetch_bank_data wNsbOk BANK_CONFIG [] "NSB" "t").1) :=
  batch_failure_isolation wNsbOk wNsbOk BANK_CONFIG [] [] ["NSB", "HDFC"] "t" "t" "NSB"
    { url := "https://www.nsb.lk/rates-tarriffs/rupee-deposit-rates/",
      table_index := 1, special := false }
    (by decide) (by decide) rfl rfl

theorem pdText_eq_of_pdCell (s : String) (h : pdCell s = PdValue.str s) :
    pdText s = s := by
  unfold pdCell at h
  by_cases hna : naValues.contains (pdText s)
  · rw [if_pos hna] at h
    cases h
  · rw [if_neg hna] at h
    simpa using h

/-- Counterexample to C9: on the well-formed single-header-row table
`tWs` the generic parser (through the `read_html` text model, which
collapses inner whitespace runs) yields the cell "a b", while the
structural parser (strip plus newline replacement only) yields
"a  b", so the two parsers do not produce identical record sequences
on the same markup and position. -/
theorem generic_structural_disagree :
    extract_table_from_html (some ([tWs].map readHtml1)) 0 =
      some { columns := ["A"], rows := [[PdValue.str "a b"]] } ∧
    extract_hdfc_table (some [tWs]) 0 =
      some { columns := ["A"], rows := [[PdValue.str "a  b"]] } ∧
    to_records { columns := ["A"], rows := [[PdValue.str "a b"]] } ≠
      to_records { columns := ["A"], rows := [[PdValue.str "a  b"]] } := by
  decide

/-- C9 as amended: the two parsers agree on a well-formed table with a
single all-`th` header row whose body rows are all-`td` rows of
exactly the header width, provided every cell text is verbatim-normal
(`cellTextNormal`): under those conditions both produce the very same
frame, hence identical record sequences.  Without the verbatim-normal
condition the parsers differ on whitespace handling, on NA-like texts,
and on the reader's numeric coercion; without the exact-width
condition they differ on how ragged rows are completed. -/
theorem generic_structural_agree_on_normal_tables (tables : List HtmlTable) (i : Nat)
    (t : HtmlTable) (hr : HtmlRow) (body : List HtmlRow)
    (ht : tables[i]? = some t)
    (hrows : t.rows = hr :: body)
    (hhead : ∀ c ∈ hr.cells, c.tag = CellTag.th ∧ cellTextNormal c.text)
    (hbody : ∀ r ∈ body, r.cells.length = hr.cells.length ∧
      ∀ c ∈ r.cells, c.tag = CellTag.td ∧ cellTextNormal c.text) :
    extract_table_from_html (some (tables.map readHtml1)) i =
      extract_hdfc_table (some tables) i := by
  rcases List.getElem?_eq_some.mp ht with ⟨hi, hEq⟩
  have hi2 : i < (tables.map readHtml1).length := by simpa using hi
  have hcolsTh : thTexts t = hr.cells.map (fun c => c.text) := by
    unfold thTexts
    rw [hrows, List.flatMap_cons, List.filter_append]
    have h1 : List.filter (fun c => decide (c.tag = CellTag.th)) hr.cells = hr.cells :=
      List.filter_eq_self.mpr (fun c hc => decide_eq_true (hhead c hc).1)
    have h2 : List.filter (fun c => decide (c.tag = CellTag.th))
        (body.flatMap (fun r => r.cells)) = [] := by
      rw [List.filter_eq_nil_iff]
      intro c hc
      obtain ⟨r, hrm, hcr⟩ := List.mem_flatMap.mp hc
      have htag := ((hbody r hrm).2 c hcr).1
      simp [htag]
    rw [h1, h2, List.append_nil]
    exact List.map_congr_left (fun c hc => (hhead c hc).2.1)
  have hH : (thTexts t).length = hr.cells.length := by
    rw [hcolsTh, List.length_map]
  have hcolsGen : hr.cells.map (fun c => pdText c.text) = hr.cells.map (fun c => c.text) :=
    List.map_congr_left (fun c hc => pdText_eq_of_pdCell _ (hhead c hc).2.2.2)
  have hrowsGen : ∀ r ∈ body,
      r.cells.map (fun c => pdCell c.text) = r.cells.map (fun c => PdValue.str c.text) :=
    fun r hrm => List.map_congr_left (fun c hc => ((hbody r hrm).2 c hc).2.2.2)
  have htd : ∀ r ∈ body, tdTexts r = r.cells.map (fun c => c.text) := by
    intro r hrm
    unfold tdTexts
    have hf : List.filter (fun c => decide (c.tag = CellTag.td)) r.cells = r.cells :=
      List.filter_eq_self.mpr (fun c hc => decide_eq_true ((hbody r hrm).2 c hc).1)
    rw [hf]
    exact List.map_congr_left (fun c hc => by
      have hn := ((hbody r hrm).2 c hc).2
      rw [hn.1, hn.2.1])
  have hgen : extract_table_from_html (some (tables.map readHtml1)) i =
      some (dropna_all
        { columns := hr.cells.map (fun c => c.text),
          rows := body.map (fun r => r.cells.map (fun c => PdValue.str c.text)) }) := by
    simp only [extract_table_from_html]
    rw [dif_pos hi2]
    refine congrArg some (congrArg dropna_all ?_)
    have hm : (tables.map readHtml1)[i] = readHtml1 t := by
      rw [List.getElem_map, hEq]
    rw [hm]
    unfold readHtml1
    rw [hrows]
    dsimp only [flattenColumns]
    rw [Frame.mk.injEq]
    exact ⟨hcolsGen, List.map_congr_left hrowsGen⟩
  have hstruct : extract_hdfc_table (some tables) i =
      some (dropna_all
        { columns := hr.cells.map (fun c => c.text),
          rows := body.map (fun r => r.cells.map (fun c => PdValue.str c.text)) }) := by
    simp only [extract_hdfc_table]
    rw [dif_pos hi]
    refine congrArg some (congrArg dropna_all ?_)
    simp only [hEq]
    rw [Frame.mk.injEq]
    refine ⟨hcolsTh, ?_⟩
    rw [hrows]
    simp only [List.drop_succ_cons, List.drop_zero, List.map_map]
    apply List.map_congr_left
    intro r hrm
    simp only [Function.comp_apply]
    rw [htd r hrm,
      reconcileRow_eq_self _ _ (by rw [List.length_map, (hbody r hrm).1, hH]),
      List.map_map]
    rfl
  rw [hgen, hstruct]

/-- Witness for the amended C9 at the verbatim-normal fixture. -/
theorem generic_structural_agree_on_normal_tables_witness :
    extract_table_from_html (some ([tNormal].map readHtml1)) 0 =
      extract_hdfc_table (some [tNormal]) 0 :=
  generic_structural_agree_on_normal_tables [tNormal] 0 tNormal
    { cells := [{ tag := CellTag.th, text := "A" }, { tag := CellTag.th, text := "B" }] }
    [{ cells := [{ tag := CellTag.td, text := "x1" }, { tag := CellTag.td, text := "y2" }] }]
    (by decide) (by decide) (by decide) (by decide)
